import Mathlib

/-!
Shallow embedding of the persisted-query subsystem of a Go GraphQL HTTP
handler.  The embedded code is `persistedQueryCheck` together with its
process-wide `cache` (a Go `map[string]CacheEntry`), and the fragment of
`ContextHandler` that calls it: on error the handler writes the error body
and returns without invoking `graphql.Do`.

Modelling choices, one-to-one with the Go source:
  * Go `interface{}` values reachable through the `Extensions` map are
    modelled by `GoValue`.  A failed type assertion (`x.(T)` on a value of
    the wrong dynamic type, or on a nil interface) is a runtime panic; the
    embedding makes every assertion explicit via `asObj` / `asString` /
    `asFloat` returning `Option`, with `none` mapped to the `panic` outcome.
  * Go maps are association lists.  Indexing a map at an absent key yields
    the zero value (`GoValue.nullv` for `interface{}`, the all-zero
    `CacheEntry` for the cache); insertion overwrites the key.
  * `float64` values are only ever stored by this code, never computed
    with, so a float is carried opaquely as its bit pattern (a `Nat`).
  * `persistedQueryCheck` receives `*RequestOptions` and mutates through
    the pointer.  `PQResult` therefore records, besides the returned pair,
    the caller-visible state of the pointed-to `RequestOptions` and the
    cache after the call.
-/

/-- A Go `interface{}` value as it can appear inside the decoded
`extensions` map: JSON null / absent (`nullv`), a string, a number
(float64, carried as its bit pattern), a nested object, or a boolean. -/
inductive GoValue where
  | nullv : GoValue
  | str : String → GoValue
  | num : Nat → GoValue
  | obj : List (String × GoValue) → GoValue
  | boolv : Bool → GoValue

/-- Indexing a Go `map[string]interface{}`: the first binding wins,
an absent key yields the nil interface (`nullv`). -/
def lookupVal : List (String × GoValue) → String → GoValue
  | [], _ => .nullv
  | (k, v) :: rest, key => if k = key then v else lookupVal rest key

/-- The type assertion `x.(map[string]interface{})`: `none` is a panic. -/
def asObj : GoValue → Option (List (String × GoValue))
  | .obj fields => some fields
  | _ => none

/-- The type assertion `x.(string)`: `none` is a panic. -/
def asString : GoValue → Option String
  | .str s => some s
  | _ => none

/-- The type assertion `x.(float64)`: `none` is a panic. -/
def asFloat : GoValue → Option Nat
  | .num bits => some bits
  | _ => none

/-- Go struct `CacheEntry` (src/unnamed/part_000, lines 7-12). -/
structure CacheEntry where
  operationName : String
  query : String
  sha256Hash : String
  version : Nat
deriving Repr, DecidableEq

/-- The process-wide `cache` map, `map[string]CacheEntry`. -/
abbrev Cache := List (String × CacheEntry)

/-- Go map indexing `cache[sha]`: an absent key yields the zero value
of `CacheEntry` (all fields empty / zero). -/
def cacheGet : Cache → String → CacheEntry
  | [], _ => { operationName := "", query := "", sha256Hash := "", version := 0 }
  | (k, e) :: rest, key => if k = key then e else cacheGet rest key

/-- Go map assignment `cache[sha] = entry`: overwrites any previous
binding of the key. -/
def cacheSet (c : Cache) (key : String) (e : CacheEntry) : Cache :=
  (key, e) :: c.filter (fun p => p.1 != key)

/-- Key membership in the cache map. -/
def cacheMem : Cache → String → Bool
  | [], _ => false
  | (k, _) :: rest, key => k = key || cacheMem rest key

/-- Pass-through `variables` payload of a request (opaque to the resolver). -/
abbrev Variables := List (String × GoValue)

/-- Go struct `RequestOptions` (src/handler.go, lines 35-42).
`Extensions` is `none` when the Go map is nil. -/
structure RequestOptions where
  Query : String
  Variables : Variables
  OperationName : String
  Extensions : Option (List (String × GoValue))
  Persisted : Bool
  HasPersistedParams : Bool

/-- The exact bytes of the lookup-miss error produced at
src/unnamed/part_000 line 40. -/
def persistedQueryNotFoundBody : String :=
  "\x7b\"errors\":[\x7b\"message\":\"PersistedQueryNotFound\",\"extensions\":\x7b\"code\":\"PERSISTED_QUERY_NOT_FOUND\"\x7d\x7d]\x7d"

/-- Outcome of a call to `persistedQueryCheck`.  Each constructor records
the caller-visible state of the `*RequestOptions` argument after the call
(the function mutates through the pointer) and the cache after the call.
`ok` is `return opts, nil`; `fail` is `return nil, errors.New(msg)`;
`panic` is a runtime type-assertion fault. -/
inductive PQResult where
  | ok : RequestOptions → Cache → PQResult
  | fail : String → RequestOptions → Cache → PQResult
  | panic : RequestOptions → Cache → PQResult

/-- The cache after the call. -/
def PQResult.cacheOut : PQResult → Cache
  | .ok _ c => c
  | .fail _ _ c => c
  | .panic _ c => c

/-- The caller-visible state of the request object after the call. -/
def PQResult.optsOut : PQResult → RequestOptions
  | .ok o _ => o
  | .fail _ o _ => o
  | .panic o _ => o

/-- The returned `*RequestOptions` pointer: `none` is Go `nil`
(the error return and, vacuously, a panic). -/
def PQResult.returned : PQResult → Option RequestOptions
  | .ok o _ => some o
  | .fail _ _ _ => none
  | .panic _ _ => none

/-- `Query` of the returned request, when one was returned. -/
def PQResult.retQuery : PQResult → Option String
  | .ok o _ => some o.Query
  | _ => none

/-- `Persisted` flag of the returned request, when one was returned. -/
def PQResult.retPersisted : PQResult → Option Bool
  | .ok o _ => some o.Persisted
  | _ => none

/-- Whether the call died on a type assertion. -/
def PQResult.isPanic : PQResult → Bool
  | .panic _ _ => true
  | _ => false

/-- Go `persistedQueryCheck` (src/unnamed/part_000, lines 16-56),
translated line by line.  The in-place mutation
`opts.HasPersistedParams = true` at line 35 is rendered by threading the
updated record into every branch reached after it. -/
def persistedQueryCheck (opts : RequestOptions) (cache : Cache) : PQResult :=
  match opts.Extensions with
  | none => .ok opts cache
  | some exts =>
    match lookupVal exts "persistedQuery" with
    | .nullv => .ok opts cache
    | persistedQuery =>
      match asObj persistedQuery with
      | none => .panic opts cache
      | some values =>
        match asString (lookupVal values "sha256Hash") with
        | none => .panic opts cache
        | some sha =>
          if sha = "" then .ok opts cache
          else if opts.Query = "" then
            if (cacheGet cache sha).query = "" then
              .fail persistedQueryNotFoundBody
                { opts with HasPersistedParams := true } cache
            else
              .ok { opts with
                    HasPersistedParams := true
                    OperationName := (cacheGet cache sha).operationName
                    Query := (cacheGet cache sha).query
                    Persisted := true } cache
          else
            match asFloat (lookupVal values "version") with
            | none => .panic { opts with HasPersistedParams := true } cache
            | some v =>
              .ok { opts with HasPersistedParams := true }
                (cacheSet cache sha
                  { operationName := opts.OperationName,
                    query := opts.Query,
                    sha256Hash := sha,
                    version := v })

/-- Observable control flow of `ContextHandler` (src/handler.go,
lines 135-164) around the resolver: on a resolver error the handler
writes the error body with `Content-Type: application/json` and returns;
on OPTIONS it answers 204; otherwise it invokes `graphql.Do` with the
resolved query, variables and operation name. -/
inductive HandlerStep where
  | errorResponse : String → String → HandlerStep
  | noContent204 : HandlerStep
  | invokeDo : String → Variables → String → HandlerStep
  | panicked : HandlerStep

/-- The handler's dispatch decision after `persistedQueryCheck`,
together with the cache it leaves behind. -/
def contextHandler (method : String) (opts : RequestOptions) (cache : Cache) :
    HandlerStep × Cache :=
  match persistedQueryCheck opts cache with
  | .panic _ c => (.panicked, c)
  | .fail msg _ c => (.errorResponse "application/json" msg, c)
  | .ok o c =>
    if method = "OPTIONS" then (.noContent204, c)
    else (.invokeDo o.Query o.Variables o.OperationName, c)

/-- A registration-phase request per the wire contract: non-empty query
text alongside a `persistedQuery` descriptor with the given hash and a
numeric `version`. -/
def regRequest (h q opName : String) (vars : Variables) (v : Nat) : RequestOptions :=
  { Query := q, Variables := vars, OperationName := opName,
    Extensions := some [("persistedQuery",
      .obj [("sha256Hash", .str h), ("version", .num v)])],
    Persisted := false, HasPersistedParams := false }

/-- A lookup-phase request: empty query, same descriptor shape. -/
def lookupRequest (h : String) (v : Nat) : RequestOptions :=
  regRequest h "" "" [] v

/-- Register `(h, q)` then look up `h` with empty query text, starting
from cache `c`; the registration's output cache feeds the lookup. -/
def roundtrip (h q opName : String) (vars : Variables) (v : Nat) (c : Cache) : PQResult :=
  match persistedQueryCheck (regRequest h q opName vars v) c with
  | .ok _ c₁ => persistedQueryCheck (lookupRequest h v) c₁
  | r => r

/-- Register `(h, q₁)`, then `(h, q₂)`, then look up `h` with empty
query text, threading the cache through. -/
def lastWriteTrip (h q₁ q₂ : String) (v : Nat) (c : Cache) : PQResult :=
  match persistedQueryCheck (regRequest h q₁ "" [] v) c with
  | .ok _ c₁ =>
    match persistedQueryCheck (regRequest h q₂ "" [] v) c₁ with
    | .ok _ c₂ => persistedQueryCheck (lookupRequest h v) c₂
    | r => r
  | r => r

example : (roundtrip "abc123" "\x7b hello \x7d" "" [] 1 []).retQuery
    = some "\x7b hello \x7d" := by decide

example : (roundtrip "" "x" "" [] 1 []).retPersisted = some false := by decide

example : (lastWriteTrip "h" "a" "b" 1 []).retQuery = some "b" := by decide

/-! ### Helper lemmas about the cache map -/

theorem cacheGet_set_self (c : Cache) (k : String) (e : CacheEntry) :
    cacheGet (cacheSet c k e) k = e := by
  simp [cacheSet, cacheGet]

theorem cacheGet_zero_of_not_mem (c : Cache) (k : String)
    (h : cacheMem c k = false) :
    cacheGet c k = { operationName := "", query := "", sha256Hash := "", version := 0 } := by
  induction c with
  | nil => rfl
  | cons hd tl ih =>
    obtain ⟨a, e⟩ := hd
    simp only [cacheMem, Bool.or_eq_false_iff, decide_eq_false_iff_not] at h
    simp [cacheGet, h.1, ih h.2]

theorem cacheMem_filter (c : Cache) (k k' : String) (hne : k ≠ k')
    (h : cacheMem c k = true) :
    cacheMem (c.filter (fun p => p.1 != k')) k = true := by
  induction c with
  | nil => simp [cacheMem] at h
  | cons hd tl ih =>
    obtain ⟨a, e⟩ := hd
    simp only [cacheMem, Bool.or_eq_true, decide_eq_true_eq] at h
    rcases h with h | h
    · subst h
      have hb : (a != k') = true := bne_iff_ne.mpr hne
      simp [List.filter, hb, cacheMem]
    · by_cases ha : a != k'
      · simp [List.filter, ha, cacheMem, ih h]
      · simp [List.filter, ha, ih h]

theorem cacheMem_cacheSet (c : Cache) (k' : String) (e : CacheEntry) (k : String)
    (h : cacheMem c k = true) :
    cacheMem (cacheSet c k' e) k = true := by
  by_cases hk : k' = k
  · simp [cacheSet, cacheMem, hk]
  · simp only [cacheSet, cacheMem, Bool.or_eq_true, decide_eq_true_eq]
    exact Or.inr (cacheMem_filter c k k' (fun hkk => hk hkk.symm) h)

/-! ### Claim theorems -/

/-- Claim C3 (confirmed): a request whose extensions are absent, contain
no `persistedQuery` entry, or whose descriptor's `sha256Hash` is the empty
string, is returned unchanged — `HasPersistedParams = false` and
`Persisted = false` as on input — with no error and the cache untouched. -/
theorem c3_passthrough (opts : RequestOptions) (c : Cache)
    (hP : opts.Persisted = false) (hH : opts.HasPersistedParams = false)
    (h : opts.Extensions = none
      ∨ (∃ exts, opts.Extensions = some exts
          ∧ lookupVal exts "persistedQuery" = .nullv)
      ∨ (∃ exts values, opts.Extensions = some exts
          ∧ lookupVal exts "persistedQuery" = .obj values
          ∧ lookupVal values "sha256Hash" = .str "")) :
    persistedQueryCheck opts c =
      .ok { Query := opts.Query, Variables := opts.Variables,
            OperationName := opts.OperationName, Extensions := opts.Extensions,
            Persisted := false, HasPersistedParams := false } c := by
  have hopts : opts =
      { Query := opts.Query, Variables := opts.Variables,
        OperationName := opts.OperationName, Extensions := opts.Extensions,
        Persisted := false, HasPersistedParams := false } := by
    cases opts
    simp_all
  rcases h with hE | ⟨exts, hE, hpq⟩ | ⟨exts, values, hE, hpq, hsha⟩
  · rw [← hopts]
    simp [persistedQueryCheck, hE]
  · rw [← hopts]
    simp [persistedQueryCheck, hE, hpq]
  · rw [← hopts]
    simp [persistedQueryCheck, hE, hpq, asObj, asString, hsha]

/-- Concrete pass-through witness: no extensions at all. -/
theorem c3_passthrough_witness :
    persistedQueryCheck
      { Query := "q", Variables := [], OperationName := "",
        Extensions := none, Persisted := false, HasPersistedParams := false } [] =
    .ok { Query := "q", Variables := [], OperationName := "",
          Extensions := none, Persisted := false, HasPersistedParams := false } [] :=
  c3_passthrough
    { Query := "q", Variables := [], OperationName := "",
      Extensions := none, Persisted := false, HasPersistedParams := false }
    [] rfl rfl (Or.inl rfl)

/-- A request whose `persistedQuery` extension value is not an object. -/
def badShapeNotObject : RequestOptions :=
  { Query := "", Variables := [], OperationName := "",
    Extensions := some [("persistedQuery", .str "notAnObject")],
    Persisted := false, HasPersistedParams := false }

/-- A request whose `persistedQuery` object has no `sha256Hash` field. -/
def badShapeNoSha : RequestOptions :=
  { Query := "", Variables := [], OperationName := "",
    Extensions := some [("persistedQuery", .obj [("version", .num 1)])],
    Persisted := false, HasPersistedParams := false }

/-- A request whose `sha256Hash` field is not a string. -/
def badShapeShaNotString : RequestOptions :=
  { Query := "", Variables := [], OperationName := "",
    Extensions := some [("persistedQuery", .obj [("sha256Hash", .num 5)])],
    Persisted := false, HasPersistedParams := false }

/-- Claim C6 (confirmed): there are requests whose `persistedQuery` value
is not an object, or whose `sha256Hash` is absent or not a string, on which
`persistedQueryCheck` dies with a type-assertion fault rather than
returning a pass-through or an error value. -/
theorem c6_malformed_shape_panics :
    (persistedQueryCheck badShapeNotObject []).isPanic = true
    ∧ (persistedQueryCheck badShapeNoSha []).isPanic = true
    ∧ (persistedQueryCheck badShapeShaNotString []).isPanic = true := by
  refine ⟨rfl, rfl, rfl⟩

/-- Claim C2 (confirmed): an empty-query request whose descriptor carries a
non-empty hash absent from the cache makes `persistedQueryCheck` fail with
exactly the `PersistedQueryNotFound` JSON bytes, and `ContextHandler`
answers with that error body and never reaches `graphql.Do`. -/
theorem c2_lookup_miss_short_circuits (opts : RequestOptions) (c : Cache)
    (exts values : List (String × GoValue)) (sha method : String)
    (hE : opts.Extensions = some exts)
    (hpq : lookupVal exts "persistedQuery" = .obj values)
    (hsha : lookupVal values "sha256Hash" = .str sha)
    (hne : sha ≠ "")
    (hq : opts.Query = "")
    (hmiss : cacheMem c sha = false) :
    persistedQueryCheck opts c =
      .fail persistedQueryNotFoundBody { opts with HasPersistedParams := true } c
    ∧ contextHandler method opts c =
      (.errorResponse "application/json" persistedQueryNotFoundBody, c) := by
  have hzero := cacheGet_zero_of_not_mem c sha hmiss
  have hfail : persistedQueryCheck opts c =
      .fail persistedQueryNotFoundBody { opts with HasPersistedParams := true } c := by
    simp [persistedQueryCheck, hE, hpq, asObj, asString, hsha, hne, hq, hzero]
  exact ⟨hfail, by simp [contextHandler, hfail]⟩

/-- Concrete lookup miss on an empty cache. -/
theorem c2_lookup_miss_witness :
    persistedQueryCheck (lookupRequest "deadbeef" 1) [] =
      .fail persistedQueryNotFoundBody
        { lookupRequest "deadbeef" 1 with HasPersistedParams := true } []
    ∧ contextHandler "POST" (lookupRequest "deadbeef" 1) [] =
      (.errorResponse "application/json" persistedQueryNotFoundBody, []) :=
  c2_lookup_miss_short_circuits (lookupRequest "deadbeef" 1) []
    [("persistedQuery", .obj [("sha256Hash", .str "deadbeef"), ("version", .num 1)])]
    [("sha256Hash", .str "deadbeef"), ("version", .num 1)]
    "deadbeef" "POST" rfl rfl rfl (by decide) rfl rfl

/-- Claim C1 counterexample: at hash `""` the claimed round-trip fails —
the registration request passes through without storing anything (an empty
`sha256Hash` is the pass-through path), so the lookup neither returns the
query text nor sets `Persisted`. -/
theorem c1_roundtrip_counterexample :
    ¬ ((roundtrip "" "x" "" [] 1 []).retQuery = some "x"
       ∧ (roundtrip "" "x" "" [] 1 []).retPersisted = some true) := by
  decide

/-- Claim C1 as amended (the hash must be non-empty): for every non-empty
hash and non-empty query text, registering then looking up with empty
query text succeeds, returns the registered query text and operation name,
and sets `Persisted = true`; the cache holds the registered entry. -/
theorem c1_roundtrip_nonempty_hash (h q opName : String) (vars : Variables)
    (v : Nat) (c : Cache) (hh : h ≠ "") (hq : q ≠ "") :
    roundtrip h q opName vars v c =
      .ok { Query := q, Variables := [], OperationName := opName,
            Extensions := some [("persistedQuery",
              .obj [("sha256Hash", .str h), ("version", .num v)])],
            Persisted := true, HasPersistedParams := true }
        (cacheSet c h
          { operationName := opName, query := q, sha256Hash := h, version := v }) := by
  have hreg : persistedQueryCheck (regRequest h q opName vars v) c =
      .ok { regRequest h q opName vars v with HasPersistedParams := true }
        (cacheSet c h
          { operationName := opName, query := q, sha256Hash := h, version := v }) := by
    simp [persistedQueryCheck, regRequest, lookupVal, asObj, asString, asFloat, hh, hq]
  have hget := cacheGet_set_self c h
    { operationName := opName, query := q, sha256Hash := h, version := v }
  rw [roundtrip, hreg]
  simp [persistedQueryCheck, lookupRequest, regRequest, lookupVal, asObj, asString,
    hh, hget, hq]

/-- Round-trip at a concrete non-empty hash and query. -/
theorem c1_roundtrip_witness :
    roundtrip "abc123" "query text" "op" [] 1 [] =
      .ok { Query := "query text", Variables := [], OperationName := "op",
            Extensions := some [("persistedQuery",
              .obj [("sha256Hash", .str "abc123"), ("version", .num 1)])],
            Persisted := true, HasPersistedParams := true }
        (cacheSet [] "abc123"
          { operationName := "op", query := "query text",
            sha256Hash := "abc123", version := 1 }) :=
  c1_roundtrip_nonempty_hash "abc123" "query text" "op" [] 1 []
    (by decide) (by decide)

/-- Claim C5 counterexample: at hash `""` both registrations pass through
without storing, so the final lookup does not return the second query
text. -/
theorem c5_last_write_counterexample :
    ¬ ((lastWriteTrip "" "a" "b" 1 []).retQuery = some "b") := by
  decide

/-- Claim C5 as amended (the hash must be non-empty): registering
`(h, q₁)` then `(h, q₂)` raises no error on either call — the final
result being `ok` shows both registrations returned `ok` — and the
subsequent empty-query lookup of `h` returns `q₂`: the second entry
silently overwrote the first, with no collision error. -/
theorem c5_last_write_wins_nonempty_hash (h q₁ q₂ : String) (v : Nat) (c : Cache)
    (hh : h ≠ "") (h1 : q₁ ≠ "") (h2 : q₂ ≠ "") :
    lastWriteTrip h q₁ q₂ v c =
      .ok { Query := q₂, Variables := [], OperationName := "",
            Extensions := some [("persistedQuery",
              .obj [("sha256Hash", .str h), ("version", .num v)])],
            Persisted := true, HasPersistedParams := true }
        (cacheSet (cacheSet c h
            { operationName := "", query := q₁, sha256Hash := h, version := v }) h
          { operationName := "", query := q₂, sha256Hash := h, version := v }) := by
  have hreg1 : persistedQueryCheck (regRequest h q₁ "" [] v) c =
      .ok { regRequest h q₁ "" [] v with HasPersistedParams := true }
        (cacheSet c h
          { operationName := "", query := q₁, sha256Hash := h, version := v }) := by
    simp [persistedQueryCheck, regRequest, lookupVal, asObj, asString, asFloat, hh, h1]
  have hreg2 : persistedQueryCheck (regRequest h q₂ "" [] v)
      (cacheSet c h { operationName := "", query := q₁, sha256Hash := h, version := v }) =
      .ok { regRequest h q₂ "" [] v with HasPersistedParams := true }
        (cacheSet (cacheSet c h
            { operationName := "", query := q₁, sha256Hash := h, version := v }) h
          { operationName := "", query := q₂, sha256Hash := h, version := v }) := by
    simp [persistedQueryCheck, regRequest, lookupVal, asObj, asString, asFloat, hh, h2]
  have hget := cacheGet_set_self
    (cacheSet c h { operationName := "", query := q₁, sha256Hash := h, version := v }) h
    { operationName := "", query := q₂, sha256Hash := h, version := v }
  rw [lastWriteTrip]
  simp only [hreg1, hreg2]
  simp [persistedQueryCheck, lookupRequest, regRequest, lookupVal, asObj, asString,
    hh, hget, h2]

/-- Overwrite at a concrete non-empty hash. -/
theorem c5_last_write_wins_witness :
    lastWriteTrip "h1" "a" "b" 2 [] =
      .ok { Query := "b", Variables := [], OperationName := "",
            Extensions := some [("persistedQuery",
              .obj [("sha256Hash", .str "h1"), ("version", .num 2)])],
            Persisted := true, HasPersistedParams := true }
        (cacheSet (cacheSet [] "h1"
            { operationName := "", query := "a", sha256Hash := "h1", version := 2 }) "h1"
          { operationName := "", query := "b", sha256Hash := "h1", version := 2 }) :=
  c5_last_write_wins_nonempty_hash "h1" "a" "b" 2 [] (by decide) (by decide) (by decide)

/-- A registration-phase request (non-empty query) whose descriptor has a
valid non-empty `sha256Hash` but no `version` field at all. -/
def versionlessRegRequest : RequestOptions :=
  { Query := "x", Variables := [], OperationName := "",
    Extensions := some [("persistedQuery", .obj [("sha256Hash", .str "h")])],
    Persisted := false, HasPersistedParams := false }

/-- Claim C4 counterexample: on a registration request with a valid
non-empty hash and a missing `version` field, `persistedQueryCheck`
itself faults (the `float64` type assertion on `values["version"]`
panics), contradicting the claim that the resolver never faults on the
version field in any phase. -/
theorem c4_version_counterexample :
    (persistedQueryCheck versionlessRegRequest []).isPanic = true := rfl

/-- Claim C4 as amended: for a request with a valid non-empty
`sha256Hash`, the version field is never read in the lookup phase (empty
query), so `persistedQueryCheck` cannot fault on it there; in the
registration phase (non-empty query) a missing or non-float64 version
value makes `persistedQueryCheck` itself fault with a type-assertion
panic — a resolver-level runtime fault, not a decode-time error. -/
theorem c4_version_fault_phases (opts : RequestOptions) (c : Cache)
    (exts values : List (String × GoValue)) (sha : String)
    (hE : opts.Extensions = some exts)
    (hpq : lookupVal exts "persistedQuery" = .obj values)
    (hsha : lookupVal values "sha256Hash" = .str sha)
    (hne : sha ≠ "") :
    (opts.Query = "" → (persistedQueryCheck opts c).isPanic = false)
    ∧ (opts.Query ≠ "" → asFloat (lookupVal values "version") = none →
        persistedQueryCheck opts c = .panic { opts with HasPersistedParams := true } c) := by
  constructor
  · intro hq
    by_cases hfound : (cacheGet c sha).query = ""
    · simp [persistedQueryCheck, hE, hpq, asObj, asString, hsha, hne, hq, hfound,
        PQResult.isPanic]
    · simp [persistedQueryCheck, hE, hpq, asObj, asString, hsha, hne, hq, hfound,
        PQResult.isPanic]
  · intro hq hv
    simp [persistedQueryCheck, hE, hpq, asObj, asString, hsha, hne, hq, hv]

/-- The lookup phase at a concrete request never reads the version:
here the descriptor's version is a string, yet the call does not panic. -/
theorem c4_version_fault_witness :
    (persistedQueryCheck
      { Query := "", Variables := [], OperationName := "",
        Extensions := some [("persistedQuery",
          .obj [("sha256Hash", .str "h"), ("version", .str "bad")])],
        Persisted := false, HasPersistedParams := false } []).isPanic = false :=
  (c4_version_fault_phases
    { Query := "", Variables := [], OperationName := "",
      Extensions := some [("persistedQuery",
        .obj [("sha256Hash", .str "h"), ("version", .str "bad")])],
      Persisted := false, HasPersistedParams := false } []
    [("persistedQuery", .obj [("sha256Hash", .str "h"), ("version", .str "bad")])]
    [("sha256Hash", .str "h"), ("version", .str "bad")]
    "h" rfl rfl rfl (by decide)).1 rfl

/-- Claim C7 (confirmed): a registration-phase request — non-empty query,
descriptor with non-empty hash and numeric version — comes back with
`Query`, `OperationName` and `Variables` untouched, `Persisted` still
false, `HasPersistedParams` set to true, no error; the entry is stored. -/
theorem c7_registration_frame (opts : RequestOptions) (c : Cache)
    (exts values : List (String × GoValue)) (sha : String) (v : Nat)
    (hE : opts.Extensions = some exts)
    (hpq : lookupVal exts "persistedQuery" = .obj values)
    (hsha : lookupVal values "sha256Hash" = .str sha)
    (hne : sha ≠ "")
    (hv : lookupVal values "version" = .num v)
    (hq : opts.Query ≠ "")
    (hP : opts.Persisted = false) :
    persistedQueryCheck opts c =
      .ok { Query := opts.Query, Variables := opts.Variables,
            OperationName := opts.OperationName, Extensions := opts.Extensions,
            Persisted := false, HasPersistedParams := true }
        (cacheSet c sha
          { operationName := opts.OperationName, query := opts.Query,
            sha256Hash := sha, version := v }) := by
  simp [persistedQueryCheck, hE, hpq, asObj, asString, asFloat, hsha, hne, hv, hq, hP]

/-- Registration frame at a concrete request. -/
theorem c7_registration_frame_witness :
    persistedQueryCheck (regRequest "h" "q" "op" [("x", .num 3)] 7) [] =
      .ok { Query := "q", Variables := [("x", .num 3)], OperationName := "op",
            Extensions := some [("persistedQuery",
              .obj [("sha256Hash", .str "h"), ("version", .num 7)])],
            Persisted := false, HasPersistedParams := true }
        (cacheSet [] "h"
          { operationName := "op", query := "q", sha256Hash := "h", version := 7 }) :=
  c7_registration_frame (regRequest "h" "q" "op" [("x", .num 3)] 7) []
    [("persistedQuery", .obj [("sha256Hash", .str "h"), ("version", .num 7)])]
    [("sha256Hash", .str "h"), ("version", .num 7)]
    "h" 7 rfl rfl rfl (by decide) rfl (by decide) rfl

/-- Claim C8 (confirmed): no call to `persistedQueryCheck` removes a key
from the cache — every hash present before a call is still present after
it, whatever the request. -/
theorem c8_cache_monotone (opts : RequestOptions) (c : Cache) (k : String)
    (hmem : cacheMem c k = true) :
    cacheMem (persistedQueryCheck opts c).cacheOut k = true := by
  unfold persistedQueryCheck
  repeat' split
  all_goals simp only [PQResult.cacheOut]
  all_goals first
    | exact hmem
    | exact cacheMem_cacheSet _ _ _ _ hmem

/-- Monotonicity across a concrete registration that overwrites the key. -/
theorem c8_cache_monotone_witness :
    cacheMem (persistedQueryCheck (regRequest "k" "q2" "" [] 1)
      [("k", { operationName := "", query := "q1", sha256Hash := "k", version := 1 })]).cacheOut
      "k" = true :=
  c8_cache_monotone (regRequest "k" "q2" "" [] 1)
    [("k", { operationName := "", query := "q1", sha256Hash := "k", version := 1 })]
    "k" (by decide)

/-- Claim C10 (confirmed): whenever `persistedQueryCheck` fails with the
`PersistedQueryNotFound` error, the returned request pointer is nil, and
the caller's request object was already mutated before the error: its
`HasPersistedParams` flag is true (and nothing else changed). -/
theorem c10_fail_returns_nil_after_mutation (opts : RequestOptions) (c : Cache)
    (msg : String) (o : RequestOptions) (c₂ : Cache)
    (hfail : persistedQueryCheck opts c = .fail msg o c₂) :
    (persistedQueryCheck opts c).returned = none
    ∧ o = { opts with HasPersistedParams := true }
    ∧ o.HasPersistedParams = true := by
  have h2 : o = { opts with HasPersistedParams := true } := by
    unfold persistedQueryCheck at hfail
    repeat' split at hfail
    all_goals simp_all
  refine ⟨by rw [hfail]; rfl, h2, by rw [h2]⟩

/-- Failure-path mutation at a concrete lookup miss. -/
theorem c10_fail_witness :
    (persistedQueryCheck (lookupRequest "zzz" 1) []).returned = none
    ∧ ({ lookupRequest "zzz" 1 with HasPersistedParams := true } : RequestOptions)
        = { lookupRequest "zzz" 1 with HasPersistedParams := true }
    ∧ ({ lookupRequest "zzz" 1 with HasPersistedParams := true }
        : RequestOptions).HasPersistedParams = true :=
  c10_fail_returns_nil_after_mutation (lookupRequest "zzz" 1) []
    persistedQueryNotFoundBody
    { lookupRequest "zzz" 1 with HasPersistedParams := true } [] rfl
